import Mathlib

/-!
Shallow embedding of the multicloud-integrator transfer core
(src/src/transfer_manager.py, src/src/utils.py, src/src/connectors/*.py).

Python exceptions are modeled by the inductive PyErr; a Python function
that may raise is modeled as a Lean function into Except PyErr.  The
external SDK clients (boto3, azure, gcloud) are black boxes per the spec;
each client call is modeled by an oracle value describing its outcome,
which the embedded connector code branches on exactly as the source does.
Wall-clock timestamps are modeled as integers supplied explicitly.
-/

namespace MCI

/-- Model of the Python exception values that the embedded code raises,
catches or re-raises.  clientError models botocore ClientError with its
error code; retryError models tenacity RetryError wrapping the last
exception; typeError models the TypeError Python raises on an operation
applied to None. -/
inductive PyErr where
  | connectionError (msg : String)
  | timeoutError (msg : String)
  | authenticationError (msg : String)
  | fileNotFoundError (msg : String)
  | permissionError (msg : String)
  | cloudStorageError (msg : String)
  | valueError (msg : String)
  | exception (msg : String)
  | clientError (code : String) (msg : String)
  | retryError (last : PyErr)
  | typeError
  deriving Repr, DecidableEq

/-- Model of Python str(e) for the messages built with f-strings. -/
def PyErr.str : PyErr → String
  | .connectionError m => m
  | .timeoutError m => m
  | .authenticationError m => m
  | .fileNotFoundError m => m
  | .permissionError m => m
  | .cloudStorageError m => m
  | .valueError m => m
  | .exception m => m
  | .clientError _ m => m
  | .retryError e => e.str
  | .typeError => "TypeError"

/-- connectors/base.py TransferResult dataclass.  Python float timestamps
and durations are modeled as integers. -/
structure TransferResult where
  success : Bool
  source_path : String
  destination_path : String
  bytes_transferred : Int := 0
  duration_seconds : Int := 0
  error_message : Option String := none
  deriving Repr, DecidableEq

deriving instance DecidableEq for Except

/-! ## URL Resolver: transfer_manager.MultiCloudTransferManager._parse_cloud_url -/

/-- Python str.lower, restricted to the ASCII letters that can occur in
a recognized scheme. -/
def pyLower (s : String) : String := ⟨s.toList.map Char.toLower⟩

/-- Characters allowed after the first character of a URL scheme
(letters, digits, plus, minus, dot), as in urllib.parse. -/
def isSchemeChar (c : Char) : Bool :=
  c.isAlpha || c.isDigit || c == '+' || c == '-' || c == '.'

/-- A URL scheme must be nonempty, start with a letter and contain only
scheme characters, as in urllib.parse. -/
def validScheme (l : List Char) : Bool :=
  match l with
  | [] => false
  | c :: cs => c.isAlpha && cs.all isSchemeChar

/-- Split a character list at the first occurrence of a separator,
returning the part before it and, when found, the part after it. -/
def splitFirst (sep : Char) : List Char → List Char × Option (List Char)
  | [] => ([], none)
  | c :: cs =>
    if c = sep then ([], some cs)
    else
      let r := splitFirst sep cs
      (c :: r.1, r.2)

/-- Result shape of urllib.parse.urlparse restricted to the three
components the source reads: scheme, netloc (authority) and path. -/
structure ParsedUrl where
  scheme : String
  netloc : String
  path : String
  deriving Repr, DecidableEq

/-- Model of urllib.parse.urlparse on a character list: the fragment
(from the first hash) and query (from the first question mark) are
removed; a leading valid scheme before a colon is split off; a component
introduced by two slashes is the netloc, delimited by the next slash;
the remainder is the path. -/
def urlparseList (l0 : List Char) : ParsedUrl :=
  let l1 := (splitFirst '#' l0).1
  let l := (splitFirst '?' l1).1
  let sp := splitFirst ':' l
  let schemeRest : List Char × List Char :=
    match sp.2 with
    | some rest => if validScheme sp.1 then (sp.1, rest) else ([], l)
    | none => ([], l)
  match schemeRest.2 with
  | '/' :: '/' :: r =>
    { scheme := ⟨schemeRest.1⟩
      netloc := ⟨r.takeWhile (· ≠ '/')⟩
      path := ⟨r.dropWhile (· ≠ '/')⟩ }
  | other =>
    { scheme := ⟨schemeRest.1⟩, netloc := "", path := ⟨other⟩ }

/-- Model of urllib.parse.urlparse on a string (the three components the
source reads). -/
def urlparse (s : String) : ParsedUrl := urlparseList s.toList

/-- Python str.lstrip applied with a slash argument: removes every
leading slash. -/
def lstripSlashes (s : String) : String := ⟨s.toList.dropWhile (· = '/')⟩

/-- The scheme dispatch of _parse_cloud_url (transfer_manager.py lines
50-57), applied to the lowercased scheme: s3 maps to aws, azure to
azure, gcs and gs to gcp, anything else raises ValueError. -/
def schemeToProvider (scheme : String) : Except PyErr String :=
  if scheme = "s3" then .ok "aws"
  else if scheme = "azure" then .ok "azure"
  else if scheme = "gcs" || scheme = "gs" then .ok "gcp"
  else .error (.valueError ("Unsupported URL scheme: " ++ scheme))

/-- The part of _parse_cloud_url that runs on the already-parsed URL:
lowercase the scheme, dispatch it to a provider, take the container from
the netloc and the path with leading slashes stripped. -/
def resolveParsed (p : ParsedUrl) : Except PyErr (String × String × String) :=
  match schemeToProvider (pyLower p.scheme) with
  | .error e => .error e
  | .ok provider => .ok (provider, p.netloc, lstripSlashes p.path)

/-- transfer_manager.MultiCloudTransferManager._parse_cloud_url: parse
the URL, lowercase the scheme, dispatch to a provider and return
(provider, container, path); raises ValueError on an unsupported
scheme. -/
def _parse_cloud_url (url : String) : Except PyErr (String × String × String) :=
  resolveParsed (urlparse url)

/-- Whether _parse_cloud_url succeeds on a URL. -/
def parseOk (url : String) : Bool :=
  match _parse_cloud_url url with
  | .ok _ => true
  | .error _ => false

/-! ## Resilience wrapper: utils.py -/

/-- utils.RETRIABLE_EXCEPTIONS membership: only ConnectionError and
TimeoutError trigger retries in with_retry. -/
def isRetriable : PyErr → Bool
  | .connectionError _ => true
  | .timeoutError _ => true
  | _ => false

/-- The attempt loop of the tenacity retry decorator built by
utils.with_retry, iterating over the given attempt numbers.  An attempt
is modeled by the oracle f giving the outcome of the wrapped function at
each attempt number.  On an exception that is not retriable, tenacity
re-raises it at once; on a retriable exception, once stop_after_attempt
is reached (attempt number at least max_attempts) tenacity raises
RetryError wrapping the last exception, since with_retry does not set
reraise. -/
def with_retry_loop (f : Nat → Except PyErr α) (max_attempts : Nat) :
    List Nat → Except PyErr α
  | [] => .error .typeError
  | attempt :: rest =>
    match f attempt with
    | .ok v => .ok v
    | .error e =>
      if isRetriable e then
        if max_attempts ≤ attempt then .error (.retryError e)
        else with_retry_loop f max_attempts rest
      else .error e

/-- A call through the decorator produced by utils.with_retry with the
default retriable-exception set; attempts are numbered 1 to
max_attempts. -/
def with_retry_call (f : Nat → Except PyErr α) (max_attempts : Nat) :
    Except PyErr α :=
  with_retry_loop f max_attempts (List.range' 1 max_attempts)

/-- The explicit attempt loop of utils.retry_operation over the given
attempt numbers, tracking the last exception as the source does.  Every
exception is caught; when the attempt number equals max_attempts the
exception is re-raised; the final fallthrough re-raises the tracked last
exception (None, hence a TypeError, when no attempt ran). -/
def retry_loop (f : Nat → Except PyErr α) (max_attempts : Nat)
    (last : Option PyErr) : List Nat → Except PyErr α
  | [] => .error (last.getD .typeError)
  | attempt :: rest =>
    match f attempt with
    | .ok v => .ok v
    | .error e =>
      if attempt = max_attempts then .error e
      else retry_loop f max_attempts (some e) rest

/-- utils.retry_operation: attempts run for attempt in
range(1, max_attempts + 1); the operation outcome at each attempt is
given by the oracle f. -/
def retry_operation (f : Nat → Except PyErr α) (max_attempts : Nat) :
    Except PyErr α :=
  retry_loop f max_attempts none (List.range' 1 max_attempts)

/-! ## Circuit breaker: utils.CircuitBreaker -/

/-- The three values of the state string field of utils.CircuitBreaker. -/
inductive CBState where
  | CLOSED
  | OPEN
  | HALF_OPEN
  deriving Repr, DecidableEq

/-- utils.CircuitBreaker instance state.  last_failure_time is None
until the first failure; times are modeled as integers. -/
structure CircuitBreaker where
  failure_threshold : Nat := 5
  timeout : Int := 60
  failure_count : Nat := 0
  last_failure_time : Option Int := none
  state : CBState := .CLOSED
  deriving Repr, DecidableEq

/-- Result of one CircuitBreaker.call: the returned value or raised
exception, whether the wrapped callable was invoked, and the breaker
state after the call. -/
structure CBCallResult (α : Type) where
  result : Except PyErr α
  invoked : Bool
  breaker : CircuitBreaker
  deriving Repr

/-- The body of utils.CircuitBreaker.call after the OPEN pre-check: the
wrapped callable runs (its behavior is the value f); on success a
HALF_OPEN breaker is closed and its failure count reset; on an exception
the failure count is incremented, the failure clock set to now, the
breaker opened when the count reaches the threshold, and the exception
re-raised. -/
def CircuitBreaker.exec (cb : CircuitBreaker) (now : Int)
    (f : Except PyErr α) : CBCallResult α :=
  match f with
  | .ok v =>
    let cb' := if cb.state = .HALF_OPEN then
        { cb with state := .CLOSED, failure_count := 0 }
      else cb
    ⟨.ok v, true, cb'⟩
  | .error e =>
    let fc := cb.failure_count + 1
    let cb' := { cb with failure_count := fc, last_failure_time := some now }
    let cb'' := if cb'.failure_threshold ≤ fc then { cb' with state := .OPEN }
      else cb'
    ⟨.error e, true, cb''⟩

/-- utils.CircuitBreaker.call: in the OPEN state, when the timeout has
elapsed since the last failure the state moves to HALF_OPEN and the
callable runs; otherwise ConnectionError with the message Circuit
breaker is OPEN is raised without invoking the callable.  With a None
last_failure_time the subtraction itself raises a TypeError (this state
is unreachable from a fresh breaker). -/
def CircuitBreaker.call (cb : CircuitBreaker) (now : Int)
    (f : Except PyErr α) : CBCallResult α :=
  if cb.state = .OPEN then
    match cb.last_failure_time with
    | none => ⟨.error .typeError, false, cb⟩
    | some lf =>
      if now - lf > cb.timeout then
        CircuitBreaker.exec { cb with state := .HALF_OPEN } now f
      else ⟨.error (.connectionError "Circuit breaker is OPEN"), false, cb⟩
  else CircuitBreaker.exec cb now f

/-- A sequence of calls through one breaker, all at the same instant,
with the wrapped callable behaving as the successive list entries. -/
def CircuitBreaker.runCalls (cb : CircuitBreaker) (now : Int) :
    List (Except PyErr Unit) → CircuitBreaker
  | [] => cb
  | f :: fs => ((cb.call now f).breaker).runCalls now fs

/-- Number of failing behaviors in a call sequence. -/
def countFailures (os : List (Except PyErr Unit)) : Nat :=
  os.countP fun o => match o with | .ok _ => false | .error _ => true

/-! ## Connector operations: connectors/s3_connector.py,
azure_connector.py, gcp_connector.py

Each underlying SDK call is a black box; its outcome on one invocation
is modeled by a ClientOutcome oracle value. -/

/-- Outcome of one SDK delete call: success, a botocore-style API error
with an error code, or any other raised exception (connection loss,
timeout and similar). -/
inductive ClientOutcome where
  | ok
  | clientErr (code : String) (msg : String)
  | raised (e : PyErr)
  deriving Repr, DecidableEq

/-- The body of S3Connector.delete_file: the delete_object call is
wrapped in a try that catches only ClientError, logging and returning
False; any other exception propagates out of the body to the with_retry
decorator. -/
def s3_delete_once : ClientOutcome → Except PyErr Bool
  | .ok => .ok true
  | .clientErr _ _ => .ok false
  | .raised e => .error e

/-- S3Connector.delete_file: the body above wrapped by the with_retry
decorator; the SDK outcome at each attempt is given by the oracle. -/
def S3Connector.delete_file (client : Nat → ClientOutcome)
    (max_attempts : Nat) : Except PyErr Bool :=
  with_retry_call (fun a => s3_delete_once (client a)) max_attempts

/-- The body of AzureBlobConnector.delete_file: the delete_blob call is
wrapped in a try that catches every exception, logging and returning
False. -/
def azure_delete_once : ClientOutcome → Bool
  | .ok => true
  | .clientErr _ _ => false
  | .raised _ => false

/-- AzureBlobConnector.delete_file: the body above wrapped by the
with_retry decorator (the body never raises, so the wrapper returns the
first attempt). -/
def AzureBlobConnector.delete_file (client : Nat → ClientOutcome)
    (max_attempts : Nat) : Except PyErr Bool :=
  with_retry_call (fun a => .ok (azure_delete_once (client a))) max_attempts

/-- The body of GCPStorageConnector.delete_file: the blob delete call is
wrapped in a try that catches every exception, logging and returning
False. -/
def gcp_delete_once : ClientOutcome → Bool
  | .ok => true
  | .clientErr _ _ => false
  | .raised _ => false

/-- GCPStorageConnector.delete_file: the body above wrapped by the
with_retry decorator. -/
def GCPStorageConnector.delete_file (client : Nat → ClientOutcome)
    (max_attempts : Nat) : Except PyErr Bool :=
  with_retry_call (fun a => .ok (gcp_delete_once (client a))) max_attempts

/-- S3Connector.file_exists (not retry-wrapped): head_object succeeding
returns True; a ClientError with code 404 returns False; any other
ClientError is re-raised; a non-ClientError exception is not caught. -/
def S3Connector.file_exists : ClientOutcome → Except PyErr Bool
  | .ok => .ok true
  | .clientErr code msg =>
    if code = "404" then .ok false else .error (.clientError code msg)
  | .raised e => .error e

/-- Outcome of an SDK exists call that returns a boolean or raises. -/
inductive ExistsOutcome where
  | result (b : Bool)
  | raised (e : PyErr)
  deriving Repr, DecidableEq

/-- AzureBlobConnector.file_exists: the exists call result is returned;
every exception is caught and yields False. -/
def AzureBlobConnector.file_exists : ExistsOutcome → Bool
  | .result b => b
  | .raised _ => false

/-- GCPStorageConnector.file_exists: the exists call result is returned;
every exception is caught and yields False. -/
def GCPStorageConnector.file_exists : ExistsOutcome → Bool
  | .result b => b
  | .raised _ => false

/-! ## Transfer orchestrator: transfer_manager.py

The connector operations reached by one copy are black boxes; their
outcomes are supplied by a TransferEnv oracle.  The staging temp file is
modeled by a boolean existence flag threaded through _copy_via_temp;
unlink on an existing file is modeled as succeeding. -/

/-- Oracle for the connector calls one copy_file_direct invocation can
make.  authenticate models _get_connector (connector construction plus
authentication, which raises on failure); copy_result the same-provider
connector copy_file; download_result and upload_result the two legs of a
cross-provider transfer; download_creates_temp whether the download leg
left a staging file on disk (it may on success, failure or raise). -/
structure TransferEnv where
  authenticate : String → Except PyErr Unit
  copy_result : Except PyErr TransferResult
  download_result : Except PyErr TransferResult
  download_creates_temp : Bool
  upload_result : Except PyErr TransferResult

/-- Python f-string rendering of an optional message (None prints as
None). -/
def optStr : Option String → String
  | some s => s
  | none => "None"

/-- The finally block of _copy_via_temp: if the staging file exists it
is unlinked (the unlink is modeled as succeeding). -/
def cleanup_temp (temp_exists : Bool) : Bool :=
  if temp_exists then false else temp_exists

/-- transfer_manager.MultiCloudTransferManager._copy_via_temp: download
from the source connector into the staging file, then upload to the
destination connector, wrapping each failed leg into a failed
TransferResult with a phase-prefixed message; the try/finally removes
the staging file on every path.  Returns the raised-or-returned outcome
together with whether the staging file exists afterward.  t0 and t1 are
the start and end wall-clock readings; temp0 whether the staging path
existed beforehand. -/
def _copy_via_temp (env : TransferEnv)
    (source_provider source_container source_path : String)
    (dest_provider dest_container dest_path : String)
    (t0 t1 : Int) (temp0 : Bool) :
    Except PyErr TransferResult × Bool :=
  let src_url := source_provider ++ "://" ++ source_container ++ "/" ++ source_path
  let dst_url := dest_provider ++ "://" ++ dest_container ++ "/" ++ dest_path
  match env.authenticate source_provider with
  | .error e => (.error e, cleanup_temp temp0)
  | .ok _ =>
  match env.download_result with
  | .error e => (.error e, cleanup_temp env.download_creates_temp)
  | .ok download_result =>
    if download_result.success = false then
      (.ok { success := false, source_path := src_url,
             destination_path := dst_url,
             error_message :=
               some ("Download failed: " ++ optStr download_result.error_message) },
       cleanup_temp env.download_creates_temp)
    else
      match env.authenticate dest_provider with
      | .error e => (.error e, cleanup_temp env.download_creates_temp)
      | .ok _ =>
      match env.upload_result with
      | .error e => (.error e, cleanup_temp env.download_creates_temp)
      | .ok upload_result =>
        if upload_result.success = false then
          (.ok { success := false, source_path := src_url,
                 destination_path := dst_url,
                 error_message :=
                   some ("Upload failed: " ++ optStr upload_result.error_message) },
           cleanup_temp env.download_creates_temp)
        else
          (.ok { success := true, source_path := src_url,
                 destination_path := dst_url,
                 bytes_transferred := download_result.bytes_transferred,
                 duration_seconds := t1 - t0 },
           cleanup_temp env.download_creates_temp)

/-- transfer_manager.MultiCloudTransferManager.copy_file_direct: both
URLs are parsed before the try block, so a parse ValueError propagates
to the caller; inside the try a same-provider copy goes through the
shared connector and a cross-provider copy through _copy_via_temp, and
any exception raised there is captured into a failed TransferResult
whose duration is the elapsed time.  The second component is whether a
staging file exists afterward. -/
def copy_file_direct (env : TransferEnv) (source_url dest_url : String)
    (t0 t1 : Int) : Except PyErr TransferResult × Bool :=
  match _parse_cloud_url source_url with
  | .error e => (.error e, false)
  | .ok (source_provider, source_container, source_path) =>
  match _parse_cloud_url dest_url with
  | .error e => (.error e, false)
  | .ok (dest_provider, dest_container, dest_path) =>
    let attempt : Except PyErr TransferResult × Bool :=
      if source_provider = dest_provider then
        (match env.authenticate source_provider with
         | .error e => (.error e, false)
         | .ok _ => (env.copy_result, false))
      else
        _copy_via_temp env source_provider source_container source_path
          dest_provider dest_container dest_path t0 t1 false
    match attempt with
    | (.ok r, temp) => (.ok r, temp)
    | (.error e, temp) =>
      (.ok { success := false, source_path := source_url,
             destination_path := dest_url,
             duration_seconds := t1 - t0,
             error_message := some ("Multi-cloud copy failed: " ++ e.str) },
       temp)

/-- The loop of transfer_manager.MultiCloudTransferManager.batch_copy
from list position i: each pair goes through copy_file_direct and the
result is appended; an exception raised by copy_file_direct (a parse
failure) propagates, aborting the batch.  The environment and
wall-clock readings of the transfer at position j are envs j and
times j. -/
def batch_go (envs : Nat → TransferEnv) (times : Nat → Int × Int) (i : Nat) :
    List (String × String) → Except PyErr (List TransferResult)
  | [] => .ok []
  | (source_url, dest_url) :: rest =>
    match (copy_file_direct (envs i) source_url dest_url
        (times i).1 (times i).2).1 with
    | .error e => .error e
    | .ok r =>
      match batch_go envs times (i + 1) rest with
      | .error e => .error e
      | .ok rs => .ok (r :: rs)

/-- transfer_manager.MultiCloudTransferManager.batch_copy: run every
transfer sequentially through copy_file_direct, collecting the results
in order. -/
def batch_copy (envs : Nat → TransferEnv) (times : Nat → Int × Int)
    (transfers : List (String × String)) : Except PyErr (List TransferResult) :=
  batch_go envs times 0 transfers

/-- The shape of every failed TransferResult literal built in the three
connector upload, download and copy methods: success False, paths set,
an error message set, byte count and duration left at their dataclass
defaults of zero. -/
def connectorFailureResult (src dst msg : String) : TransferResult :=
  { success := false, source_path := src, destination_path := dst,
    error_message := some msg }

/-- The shape of every successful TransferResult literal built in the
three connector upload, download and copy methods: success True, byte
count and duration measured, error message left at its dataclass
default of None. -/
def connectorSuccessResult (src dst : String) (bytes dur : Int) :
    TransferResult :=
  { success := true, source_path := src, destination_path := dst,
    bytes_transferred := bytes, duration_seconds := dur }

/-- The TransferOutcome invariant claimed by the spec: exactly one of
success with no message or failure with a message, and zero bytes and
zero duration on failure. -/
def ValidOutcome (r : TransferResult) : Prop :=
  (r.success = true ↔ r.error_message = none)
  ∧ (r.success = false → r.bytes_transferred = 0 ∧ r.duration_seconds = 0)

/-- The invariant without the zero-duration conjunct, which the
copy_file_direct exception handler violates. -/
def WeakValidOutcome (r : TransferResult) : Prop :=
  (r.success = true ↔ r.error_message = none)
  ∧ (r.success = false → r.bytes_transferred = 0)

/-- A concrete environment in which every connector call succeeds
trivially; used to exhibit concrete runs. -/
def envOkay : TransferEnv :=
  { authenticate := fun _ => .ok ()
    copy_result := .ok (connectorSuccessResult "s" "d" 10 1)
    download_result := .ok (connectorSuccessResult "s" "t" 10 1)
    download_creates_temp := true
    upload_result := .ok (connectorSuccessResult "t" "d" 10 1) }

/-- A concrete environment in which connector authentication fails the
way _get_connector raises when authenticate returns False. -/
def envAuthFail : TransferEnv :=
  { authenticate := fun provider =>
      .error (.exception ("Failed to authenticate with " ++ provider))
    copy_result := .ok (connectorSuccessResult "s" "d" 10 1)
    download_result := .ok (connectorSuccessResult "s" "t" 10 1)
    download_creates_temp := false
    upload_result := .ok (connectorSuccessResult "t" "d" 10 1) }

/-- Operation oracle failing with an authentication error on the first
attempt and succeeding afterwards; exhibits retry_operation retrying a
permanent error kind. -/
def authThenOkOp : Nat → Except PyErr Nat :=
  fun a => if a = 1 then .error (.authenticationError "bad credentials") else .ok 42

/-- The reachable-state invariant of a breaker: whenever the state is
OPEN or HALF_OPEN, the failure count has reached the threshold.  It
holds for a fresh breaker and is preserved by every call. -/
def CBInv (cb : CircuitBreaker) : Prop :=
  (cb.state = .OPEN ∨ cb.state = .HALF_OPEN) →
    cb.failure_threshold ≤ cb.failure_count

/-- The failed outcome copy_file_direct builds in its exception handler
for an authentication failure raised at time 5 of a copy started at
time 0: its duration field records the elapsed wall-clock time. -/
def failedWithDuration : TransferResult :=
  { success := false, source_path := "s3://a/f", destination_path := "s3://b/g",
    duration_seconds := 5,
    error_message := some "Multi-cloud copy failed: Failed to authenticate with aws" }

/-! ## Theorems -/

/-- A stripped path never starts with a slash. -/
theorem dropWhile_slash_head (l : List Char) :
    (l.dropWhile (· = '/')).head? ≠ some '/' := by
  induction l with
  | nil => simp
  | cons c cs ih =>
    by_cases h : c = '/'
    · simpa [List.dropWhile_cons, h] using ih
    · simp [List.dropWhile_cons, h]

/-- A scheme outside the recognized set is dispatched to a ValueError. -/
theorem schemeToProvider_unrecognized (s : String)
    (h : s ∉ (["s3", "azure", "gcs", "gs"] : List String)) :
    schemeToProvider s = .error (.valueError ("Unsupported URL scheme: " ++ s)) := by
  simp only [List.mem_cons, List.mem_singleton, not_or] at h
  obtain ⟨h1, h2, h3, h4⟩ := h
  simp [schemeToProvider, h1, h2, h3, h4]

/-- C7: _parse_cloud_url maps the scheme to a backend case-insensitively
(two parsed URLs whose schemes agree after lowercasing resolve alike),
with gs and gcs both mapping to the gcp backend; the container is the
URL authority component and the path is the URL path component with
every leading slash stripped, an empty path being legal; a URL whose
lowercased scheme is outside the recognized set is rejected with the
ValueError standing for InvalidLocation, never defaulted; and parsing is
a pure function of its input. -/
theorem C7_parse_cloud_url :
    (∀ url : String, _parse_cloud_url url = _parse_cloud_url url)
    ∧ (∀ p q : ParsedUrl, pyLower p.scheme = pyLower q.scheme →
        p.netloc = q.netloc → p.path = q.path →
        resolveParsed p = resolveParsed q)
    ∧ (∀ n pa : String, resolveParsed ⟨"gs", n, pa⟩ = resolveParsed ⟨"gcs", n, pa⟩
        ∧ resolveParsed ⟨"gs", n, pa⟩ = .ok ("gcp", n, lstripSlashes pa))
    ∧ (∀ url prov cont pa, _parse_cloud_url url = .ok (prov, cont, pa) →
        cont = (urlparse url).netloc
        ∧ pa = lstripSlashes (urlparse url).path
        ∧ pa.toList.head? ≠ some '/')
    ∧ _parse_cloud_url "s3://bucket" = .ok ("aws", "bucket", "")
    ∧ (∀ url, pyLower (urlparse url).scheme ∉ (["s3", "azure", "gcs", "gs"] : List String) →
        _parse_cloud_url url
          = .error (.valueError ("Unsupported URL scheme: " ++ pyLower (urlparse url).scheme)))
    ∧ _parse_cloud_url "s3://b/x" = .ok ("aws", "b", "x")
    ∧ _parse_cloud_url "azure://c/x" = .ok ("azure", "c", "x")
    ∧ _parse_cloud_url "gcs://g/x" = .ok ("gcp", "g", "x")
    ∧ _parse_cloud_url "gs://g/x" = .ok ("gcp", "g", "x")
    ∧ _parse_cloud_url "S3://b/x" = .ok ("aws", "b", "x") := by
  refine ⟨fun _ => rfl, ?_, ?_, ?_, rfl, ?_, rfl, rfl, rfl, rfl, rfl⟩
  · intro p q h1 h2 h3
    simp only [resolveParsed, h1, h2, h3]
  · intro n pa
    exact ⟨rfl, rfl⟩
  · intro url prov cont pa h
    unfold _parse_cloud_url resolveParsed at h
    cases hsp : schemeToProvider (pyLower (urlparse url).scheme) with
    | error e => rw [hsp] at h; cases h
    | ok provider =>
      rw [hsp] at h
      injection h with h'
      rw [Prod.mk.injEq, Prod.mk.injEq] at h'
      obtain ⟨hp, hc, hpa⟩ := h'
      refine ⟨hc.symm, hpa.symm, ?_⟩
      rw [← hpa]
      exact dropWhile_slash_head _
  · intro url h
    unfold _parse_cloud_url resolveParsed
    rw [schemeToProvider_unrecognized _ h]

/-- C7 witness: the parsing properties at concrete inputs. -/
theorem C7_witness :
    resolveParsed ⟨"S3", "b", "/x"⟩ = resolveParsed ⟨"s3", "b", "/x"⟩
    ∧ ("x" : String).toList.head? ≠ some '/'
    ∧ _parse_cloud_url "ftp://c/f"
        = .error (.valueError "Unsupported URL scheme: ftp") := by
  refine ⟨C7_parse_cloud_url.2.1 _ _ rfl rfl rfl, ?_, ?_⟩
  · exact (C7_parse_cloud_url.2.2.2.1 "s3://b/x" "aws" "b" "x" rfl).2.2
  · exact C7_parse_cloud_url.2.2.2.2.2.1 "ftp://c/f" (by decide)

/-! ### Retry wrapper lemmas -/

/-- Unrolling the attempt numbers 1..m at the first attempt. -/
theorem range'_start (m : Nat) (h : 1 ≤ m) :
    List.range' 1 m = 1 :: List.range' 2 (m - 1) := by
  cases m with
  | zero => simp at h
  | succ k => rfl

/-- A first successful attempt is returned unchanged by with_retry. -/
theorem with_retry_first_ok (f : Nat → Except PyErr α) (v : α) (m : Nat)
    (h1 : 1 ≤ m) (h2 : f 1 = .ok v) : with_retry_call f m = .ok v := by
  unfold with_retry_call
  rw [range'_start m h1]
  simp [with_retry_loop, h2]

/-- A first attempt raising a non-retriable error makes with_retry
re-raise it at once. -/
theorem with_retry_first_error (f : Nat → Except PyErr α) (e : PyErr) (m : Nat)
    (h1 : 1 ≤ m) (h2 : f 1 = .error e) (h3 : isRetriable e = false) :
    with_retry_call f m = .error e := by
  unfold with_retry_call
  rw [range'_start m h1]
  simp [with_retry_loop, h2, h3]

/-- A retriable first failure followed by a success on the second
attempt is retried by with_retry and the success returned. -/
theorem with_retry_second_ok (f : Nat → Except PyErr α) (e : PyErr) (v : α)
    (m : Nat) (h1 : 2 ≤ m) (h2 : f 1 = .error e) (h3 : isRetriable e = true)
    (h4 : f 2 = .ok v) : with_retry_call f m = .ok v := by
  obtain ⟨k, rfl⟩ : ∃ k, m = k + 2 := ⟨m - 2, by omega⟩
  have hr : List.range' 1 (k + 2) = 1 :: 2 :: List.range' 3 k := rfl
  have hh : ¬ (k + 2 ≤ 1) := by omega
  unfold with_retry_call
  rw [hr]
  simp [with_retry_loop, h2, h3, h4, hh]

/-- Exhausting with_retry on persistently retriable errors yields
RetryError wrapping the error of the last attempt. -/
theorem with_retry_loop_err (es : Nat → PyErr) (m : Nat)
    (hre : ∀ a, isRetriable (es a) = true) :
    ∀ (k a : Nat), 1 ≤ k → a + k = m + 1 →
      with_retry_loop (fun i => (.error (es i) : Except PyErr α)) m
        (List.range' a k) = .error (.retryError (es m)) := by
  intro k
  induction k with
  | zero => intro a h1 _; simp at h1
  | succ k ih =>
    intro a h1 h2
    have hr : List.range' a (k + 1) = a :: List.range' (a + 1) k := rfl
    rw [hr]
    by_cases hk : k = 0
    · subst hk
      have ha : a = m := by omega
      subst ha
      simp [with_retry_loop, hre]
    · have ha : ¬ (m ≤ a) := by omega
      simp only [with_retry_loop, hre, if_true, ha, if_false]
      exact ih (a + 1) (by omega) (by omega)

/-- with_retry exhaustion at the call level. -/
theorem with_retry_exhaust (es : Nat → PyErr) (m : Nat) (h1 : 1 ≤ m)
    (hre : ∀ a, isRetriable (es a) = true) :
    with_retry_call (α := α) (fun a => .error (es a)) m
      = .error (.retryError (es m)) :=
  with_retry_loop_err es m hre m 1 h1 (by omega)

/-- retry_operation retries after a first failure of any kind and
returns a second-attempt success. -/
theorem retry_operation_second_ok (f : Nat → Except PyErr α) (e : PyErr)
    (v : α) (m : Nat) (h1 : 2 ≤ m) (h2 : f 1 = .error e) (h4 : f 2 = .ok v) :
    retry_operation f m = .ok v := by
  obtain ⟨k, rfl⟩ : ∃ k, m = k + 2 := ⟨m - 2, by omega⟩
  have hr : List.range' 1 (k + 2) = 1 :: 2 :: List.range' 3 k := rfl
  have hh : (1 : Nat) ≠ k + 2 := by omega
  unfold retry_operation
  rw [hr]
  simp [retry_loop, h2, h4, hh]

/-- Exhausting retry_operation re-raises the error of the last attempt
itself. -/
theorem retry_loop_err (es : Nat → PyErr) (m : Nat) :
    ∀ (k a : Nat) (last : Option PyErr), 1 ≤ k → a + k = m + 1 →
      retry_loop (fun i => (.error (es i) : Except PyErr α)) m last
        (List.range' a k) = .error (es m) := by
  intro k
  induction k with
  | zero => intro a last h1 _; simp at h1
  | succ k ih =>
    intro a last h1 h2
    have hr : List.range' a (k + 1) = a :: List.range' (a + 1) k := rfl
    rw [hr]
    by_cases hk : k = 0
    · subst hk
      have ha : a = m := by omega
      subst ha
      simp [retry_loop]
    · have ha : a ≠ m := by omega
      simp only [retry_loop, ha, if_false]
      exact ih (a + 1) (some (es a)) (by omega) (by omega)

/-- retry_operation exhaustion at the call level. -/
theorem retry_operation_exhaust (es : Nat → PyErr) (m : Nat) (h1 : 1 ≤ m) :
    retry_operation (α := α) (fun a => .error (es a)) m = .error (es m) :=
  retry_loop_err es m m 1 none h1 (by omega)

/-- C4 counterexample: retry_operation catches every exception, so an
operation failing with a permanent AuthenticationError on its first
attempt is retried and the second attempt returned, instead of failing
on the first attempt as the claim states. -/
theorem C4_counterexample :
    retry_operation authThenOkOp 3 = .ok 42
    ∧ retry_operation authThenOkOp 3
        ≠ .error (.authenticationError "bad credentials") := by
  refine ⟨rfl, ?_⟩
  intro h
  simp [retry_operation, retry_loop, authThenOkOp, List.range'] at h

/-- C4 (amended): the tenacity-based with_retry wrapper retries only on
the transient connection and timeout kinds, so a permanent error fails
on the first attempt without retry, but exhausting its attempts raises
RetryError wrapping the last error rather than the last error itself;
the explicit retry_operation loop re-raises the last error itself on
exhaustion but retries every error kind, permanent ones included. -/
theorem C4_retry_semantics :
    (∀ (α : Type) (f : Nat → Except PyErr α) (e : PyErr) (m : Nat),
      1 ≤ m → f 1 = .error e → isRetriable e = false →
      with_retry_call f m = .error e)
    ∧ (∀ (α : Type) (f : Nat → Except PyErr α) (e : PyErr) (v : α) (m : Nat),
      2 ≤ m → f 1 = .error e → isRetriable e = true → f 2 = .ok v →
      with_retry_call f m = .ok v)
    ∧ (∀ (α : Type) (es : Nat → PyErr) (m : Nat), 1 ≤ m →
      (∀ a, isRetriable (es a) = true) →
      with_retry_call (α := α) (fun a => .error (es a)) m
        = .error (.retryError (es m)))
    ∧ (∀ (α : Type) (f : Nat → Except PyErr α) (e : PyErr) (v : α) (m : Nat),
      2 ≤ m → f 1 = .error e → f 2 = .ok v → retry_operation f m = .ok v)
    ∧ (∀ (α : Type) (es : Nat → PyErr) (m : Nat), 1 ≤ m →
      retry_operation (α := α) (fun a => .error (es a)) m = .error (es m)) :=
  ⟨fun _ f e m h1 h2 h3 => with_retry_first_error f e m h1 h2 h3,
   fun _ f e v m h1 h2 h3 h4 => with_retry_second_ok f e v m h1 h2 h3 h4,
   fun _ es m h1 hre => with_retry_exhaust es m h1 hre,
   fun _ f e v m h1 h2 h4 => retry_operation_second_ok f e v m h1 h2 h4,
   fun _ es m h1 => retry_operation_exhaust es m h1⟩

/-- C4 witness: the retry semantics at concrete operations. -/
theorem C4_witness :
    with_retry_call (fun _ => (.error (.authenticationError "x") : Except PyErr Nat)) 3
      = .error (.authenticationError "x")
    ∧ with_retry_call (fun _ => (.error (.connectionError "reset") : Except PyErr Nat)) 3
      = .error (.retryError (.connectionError "reset"))
    ∧ retry_operation (fun _ => (.error (.timeoutError "slow") : Except PyErr Nat)) 3
      = .error (.timeoutError "slow") := by
  refine ⟨?_, ?_, ?_⟩
  · exact C4_retry_semantics.1 Nat _ _ 3 (by omega) rfl rfl
  · exact C4_retry_semantics.2.2.1 Nat (fun _ => .connectionError "reset") 3
      (by omega) (fun _ => rfl)
  · exact C4_retry_semantics.2.2.2.2 Nat (fun _ => .timeoutError "slow") 3 (by omega)

/-- C8 counterexample: the S3 delete body catches only ClientError, so a
delete whose SDK call keeps raising a (retriable) ConnectionError is
retried by the with_retry decorator and then re-raised as RetryError —
the call raises instead of returning false. -/
theorem C8_counterexample :
    S3Connector.delete_file (fun _ => .raised (.connectionError "connection reset")) 3
      = .error (.retryError (.connectionError "connection reset"))
    ∧ ∀ b : Bool,
        S3Connector.delete_file (fun _ => .raised (.connectionError "connection reset")) 3
          ≠ .ok b := by
  have h : S3Connector.delete_file
      (fun _ => .raised (.connectionError "connection reset")) 3
      = .error (.retryError (.connectionError "connection reset")) :=
    with_retry_exhaust (fun _ => .connectionError "connection reset") 3
      (by omega) (fun _ => rfl)
  refine ⟨h, fun b hb => ?_⟩
  rw [h] at hb
  cases hb

/-- C8 (amended): deleting a non-existent object (the SDK signaling a
not-found API error) returns false without raising on every connector;
the Azure and GCP delete bodies catch every exception and return false;
but the S3 delete body catches only ClientError, so a non-ClientError
failure such as a connection loss escapes: a non-retriable one is
re-raised at once and a persistently retriable one is re-raised by the
retry wrapper as RetryError. -/
theorem C8_delete_file :
    (∀ code msg m, 1 ≤ m →
      S3Connector.delete_file (fun _ => .clientErr code msg) m = .ok false)
    ∧ (∀ (client : Nat → ClientOutcome) m, 1 ≤ m →
      AzureBlobConnector.delete_file client m = .ok (azure_delete_once (client 1)))
    ∧ (∀ o, o ≠ .ok → azure_delete_once o = false)
    ∧ (∀ (client : Nat → ClientOutcome) m, 1 ≤ m →
      GCPStorageConnector.delete_file client m = .ok (gcp_delete_once (client 1)))
    ∧ (∀ o, o ≠ .ok → gcp_delete_once o = false)
    ∧ (∀ e m, 1 ≤ m → isRetriable e = false →
      S3Connector.delete_file (fun _ => .raised e) m = .error e)
    ∧ (∀ e m, 1 ≤ m → isRetriable e = true →
      S3Connector.delete_file (fun _ => .raised e) m = .error (.retryError e)) := by
  refine ⟨?_, ?_, ?_, ?_, ?_, ?_, ?_⟩
  · intro code msg m hm
    exact with_retry_first_ok _ false m hm rfl
  · intro client m hm
    exact with_retry_first_ok _ _ m hm rfl
  · intro o ho
    cases o with
    | ok => exact absurd rfl ho
    | clientErr code msg => rfl
    | raised e => rfl
  · intro client m hm
    exact with_retry_first_ok _ _ m hm rfl
  · intro o ho
    cases o with
    | ok => exact absurd rfl ho
    | clientErr code msg => rfl
    | raised e => rfl
  · intro e m hm hre
    exact with_retry_first_error _ e m hm rfl hre
  · intro e m hm hre
    exact with_retry_exhaust (fun _ => e) m hm (fun _ => hre)

/-- C8 witness: delete behaviors at concrete SDK outcomes. -/
theorem C8_witness :
    S3Connector.delete_file (fun _ => .clientErr "404" "NoSuchKey") 3 = .ok false
    ∧ AzureBlobConnector.delete_file
        (fun _ => .raised (.fileNotFoundError "absent")) 3 = .ok false
    ∧ GCPStorageConnector.delete_file
        (fun _ => .raised (.fileNotFoundError "absent")) 3 = .ok false
    ∧ S3Connector.delete_file (fun _ => .raised (.authenticationError "denied")) 3
        = .error (.authenticationError "denied") := by
  refine ⟨?_, ?_, ?_, ?_⟩
  · exact C8_delete_file.1 "404" "NoSuchKey" 3 (by omega)
  · exact C8_delete_file.2.1 (fun _ => .raised (.fileNotFoundError "absent")) 3 (by omega)
  · exact C8_delete_file.2.2.2.1 (fun _ => .raised (.fileNotFoundError "absent")) 3 (by omega)
  · exact C8_delete_file.2.2.2.2.2.1 (.authenticationError "denied") 3 (by omega) rfl

/-- C9 counterexample: the S3 fileExists re-raises every ClientError
other than 404, so an access-denied (403) error raises instead of
yielding false. -/
theorem C9_counterexample :
    S3Connector.file_exists (.clientErr "403" "AccessDenied")
      = .error (.clientError "403" "AccessDenied")
    ∧ S3Connector.file_exists (.clientErr "403" "AccessDenied") ≠ .ok false := by
  refine ⟨rfl, ?_⟩
  intro h
  cases h

/-- C9 (amended): the Azure and GCP fileExists treat every error as
false; the S3 fileExists yields false on a not-found (404) ClientError
and true on success, but re-raises every other ClientError — access
denied included — and does not catch non-ClientError exceptions. -/
theorem C9_file_exists :
    (∀ e, AzureBlobConnector.file_exists (.raised e) = false)
    ∧ (∀ e, GCPStorageConnector.file_exists (.raised e) = false)
    ∧ (∀ msg, S3Connector.file_exists (.clientErr "404" msg) = .ok false)
    ∧ S3Connector.file_exists .ok = .ok true
    ∧ (∀ code msg, code ≠ "404" →
      S3Connector.file_exists (.clientErr code msg) = .error (.clientError code msg))
    ∧ (∀ e, S3Connector.file_exists (.raised e) = .error e) := by
  refine ⟨fun _ => rfl, fun _ => rfl, fun _ => rfl, rfl, ?_, fun _ => rfl⟩
  intro code msg h
  simp [S3Connector.file_exists, h]

/-- C9 witness: fileExists behaviors at concrete SDK outcomes. -/
theorem C9_witness :
    S3Connector.file_exists (.clientErr "500" "ServerError")
      = .error (.clientError "500" "ServerError")
    ∧ AzureBlobConnector.file_exists (.raised (.permissionError "denied")) = false := by
  refine ⟨?_, ?_⟩
  · exact C9_file_exists.2.2.2.2.1 "500" "ServerError" (by decide)
  · exact C9_file_exists.1 (.permissionError "denied")

/-! ### Circuit breaker lemmas -/

/-- Every call preserves the reachable-state invariant. -/
theorem CBInv_preserved (cb : CircuitBreaker) (now : Int) (f : Except PyErr α)
    (h : CBInv cb) : CBInv (cb.call now f).breaker := by
  obtain ⟨thr, tmo, c, lft, st⟩ := cb
  cases st with
  | CLOSED =>
    cases f with
    | ok v => simpa [CircuitBreaker.call, CircuitBreaker.exec] using h
    | error e =>
      by_cases hth : thr ≤ c + 1
      · simp [CircuitBreaker.call, CircuitBreaker.exec, hth, CBInv]
      · simp [CircuitBreaker.call, CircuitBreaker.exec, hth, CBInv]
  | OPEN =>
    have hc : thr ≤ c := h (Or.inl rfl)
    cases lft with
    | none => simpa [CircuitBreaker.call] using h
    | some lf =>
      by_cases ht : now - lf > tmo
      · cases f with
        | ok v => simp [CircuitBreaker.call, CircuitBreaker.exec, ht, CBInv]
        | error e =>
          have hth : thr ≤ c + 1 := by omega
          simp [CircuitBreaker.call, CircuitBreaker.exec, ht, hth, CBInv]
      · simpa [CircuitBreaker.call, ht] using h
  | HALF_OPEN =>
    have hc : thr ≤ c := h (Or.inr rfl)
    cases f with
    | ok v => simp [CircuitBreaker.call, CircuitBreaker.exec, CBInv]
    | error e =>
      have hth : thr ≤ c + 1 := by omega
      simp [CircuitBreaker.call, CircuitBreaker.exec, hth, CBInv]

/-- C5: the circuit breaker state machine of utils.CircuitBreaker.call:
a failing call in CLOSED whose incremented failure count reaches the
threshold opens the breaker (below the threshold it stays closed); in
OPEN with the timeout elapsed since the last failure the next call is
attempted exactly as a call in HALF_OPEN; a success in HALF_OPEN closes
the breaker and resets the failure count to zero; a failure in
HALF_OPEN (whose count has reached the threshold, as on every reachable
entry to OPEN — see the invariant conjunct) re-opens it and resets the
failure clock; and in OPEN before the timeout the call raises the
ConnectionError with message Circuit breaker is OPEN — the CircuitOpen
signal — without invoking the wrapped callable and without changing the
breaker. -/
theorem C5_circuit_breaker :
    ∀ (α : Type) (cb : CircuitBreaker) (now lf : Int) (f : Except PyErr α)
      (v : α) (e : PyErr),
    (cb.state = .CLOSED → cb.failure_threshold ≤ cb.failure_count + 1 →
      (cb.call now (.error e : Except PyErr α)).breaker.state = .OPEN
      ∧ (cb.call now (.error e : Except PyErr α)).result = .error e
      ∧ (cb.call now (.error e : Except PyErr α)).invoked = true)
    ∧ (cb.state = .CLOSED → cb.failure_count + 1 < cb.failure_threshold →
      (cb.call now (.error e : Except PyErr α)).breaker.state = .CLOSED)
    ∧ (cb.state = .OPEN → cb.last_failure_time = some lf → now - lf > cb.timeout →
      (cb.call now f).invoked = true
      ∧ cb.call now f = CircuitBreaker.call { cb with state := .HALF_OPEN } now f)
    ∧ (cb.state = .HALF_OPEN →
      (cb.call now (.ok v : Except PyErr α)).breaker.state = .CLOSED
      ∧ (cb.call now (.ok v : Except PyErr α)).breaker.failure_count = 0
      ∧ (cb.call now (.ok v : Except PyErr α)).result = .ok v)
    ∧ (cb.state = .HALF_OPEN → cb.failure_threshold ≤ cb.failure_count + 1 →
      (cb.call now (.error e : Except PyErr α)).breaker.state = .OPEN
      ∧ (cb.call now (.error e : Except PyErr α)).breaker.last_failure_time = some now
      ∧ (cb.call now (.error e : Except PyErr α)).result = .error e)
    ∧ (cb.state = .OPEN → cb.last_failure_time = some lf → ¬(now - lf > cb.timeout) →
      (cb.call now f).result = .error (.connectionError "Circuit breaker is OPEN")
      ∧ (cb.call now f).invoked = false
      ∧ (cb.call now f).breaker = cb)
    ∧ (CBInv cb → CBInv (cb.call now f).breaker) := by
  intro α cb now lf f v e
  refine ⟨?_, ?_, ?_, ?_, ?_, ?_, fun h => CBInv_preserved cb now f h⟩
  · intro hs hth
    simp [CircuitBreaker.call, CircuitBreaker.exec, hs, hth]
  · intro hs hth
    simp [CircuitBreaker.call, CircuitBreaker.exec, hs, Nat.not_le.mpr hth]
  · intro hs hlf ht
    constructor
    · cases f with
      | ok w => simp [CircuitBreaker.call, CircuitBreaker.exec, hs, hlf, ht]
      | error e' => simp [CircuitBreaker.call, CircuitBreaker.exec, hs, hlf, ht]
    · simp [CircuitBreaker.call, hs, hlf, ht]
  · intro hs
    simp [CircuitBreaker.call, CircuitBreaker.exec, hs]
  · intro hs hth
    simp [CircuitBreaker.call, CircuitBreaker.exec, hs, hth]
  · intro hs hlf ht
    simp [CircuitBreaker.call, hs, hlf, ht]

/-- C5 witness: the transitions at concrete breakers. -/
theorem C5_witness :
    ((CircuitBreaker.mk 2 60 1 (some 0) .CLOSED).call 5
        (.error (.connectionError "x") : Except PyErr Nat)).breaker.state = .OPEN
    ∧ ((CircuitBreaker.mk 2 60 2 (some 100) .OPEN).call 130
        (.ok 7 : Except PyErr Nat)).result
        = .error (.connectionError "Circuit breaker is OPEN")
    ∧ ((CircuitBreaker.mk 2 60 2 (some 100) .OPEN).call 130
        (.ok 7 : Except PyErr Nat)).invoked = false
    ∧ ((CircuitBreaker.mk 2 60 2 (some 100) .OPEN).call 161
        (.ok 7 : Except PyErr Nat)).invoked = true
    ∧ ((CircuitBreaker.mk 2 60 2 (some 100) .HALF_OPEN).call 161
        (.ok 7 : Except PyErr Nat)).breaker.failure_count = 0 := by
  refine ⟨?_, ?_, ?_, ?_, ?_⟩
  · exact ((C5_circuit_breaker Nat (CircuitBreaker.mk 2 60 1 (some 0) .CLOSED)
      5 0 (.ok 7) 7 (.connectionError "x")).1 rfl (by decide)).1
  · exact ((C5_circuit_breaker Nat (CircuitBreaker.mk 2 60 2 (some 100) .OPEN)
      130 100 (.ok 7) 7 .typeError).2.2.2.2.2.1 rfl rfl (by decide)).1
  · exact ((C5_circuit_breaker Nat (CircuitBreaker.mk 2 60 2 (some 100) .OPEN)
      130 100 (.ok 7) 7 .typeError).2.2.2.2.2.1 rfl rfl (by decide)).2.1
  · exact ((C5_circuit_breaker Nat (CircuitBreaker.mk 2 60 2 (some 100) .OPEN)
      161 100 (.ok 7) 7 .typeError).2.2.1 rfl rfl (by decide)).1
  · exact ((C5_circuit_breaker Nat (CircuitBreaker.mk 2 60 2 (some 100) .HALF_OPEN)
      161 100 (.ok 7) 7 .typeError).2.2.2.1 rfl).2.1

/-- Failures in a call list headed by a success. -/
theorem countFailures_cons_ok (v : Unit) (os : List (Except PyErr Unit)) :
    countFailures (.ok v :: os) = countFailures os := by
  simp [countFailures, List.countP_cons]

/-- Failures in a call list headed by a failure. -/
theorem countFailures_cons_err (e : PyErr) (os : List (Except PyErr Unit)) :
    countFailures (.error e :: os) = countFailures os + 1 := by
  simp [countFailures, List.countP_cons]

/-- Below the threshold the breaker stays closed and counts every
failure, successes interleaved or not. -/
theorem runCalls_closed (thr : Nat) (tmo t : Int) :
    ∀ (os : List (Except PyErr Unit)) (c : Nat) (lft : Option Int),
      c + countFailures os < thr →
      ((CircuitBreaker.mk thr tmo c lft .CLOSED).runCalls t os).state = .CLOSED
      ∧ ((CircuitBreaker.mk thr tmo c lft .CLOSED).runCalls t os).failure_count
          = c + countFailures os := by
  intro os
  induction os with
  | nil =>
    intro c lft _
    simp [CircuitBreaker.runCalls, countFailures]
  | cons o os ih =>
    intro c lft h
    cases o with
    | ok v =>
      have hcb : ((CircuitBreaker.mk thr tmo c lft .CLOSED).call t (.ok v : Except PyErr Unit)).breaker
          = CircuitBreaker.mk thr tmo c lft .CLOSED := by
        simp [CircuitBreaker.call, CircuitBreaker.exec]
      rw [countFailures_cons_ok] at h ⊢
      simpa [CircuitBreaker.runCalls, hcb] using ih c lft h
    | error e =>
      have hth : ¬ (thr ≤ c + 1) := by
        rw [countFailures_cons_err] at h
        omega
      have hcb : ((CircuitBreaker.mk thr tmo c lft .CLOSED).call t (.error e : Except PyErr Unit)).breaker
          = CircuitBreaker.mk thr tmo (c + 1) (some t) .CLOSED := by
        simp [CircuitBreaker.call, CircuitBreaker.exec, hth]
      rw [countFailures_cons_err] at h ⊢
      have hrec := ih (c + 1) (some t) (by omega)
      refine ⟨?_, ?_⟩
      · simpa [CircuitBreaker.runCalls, hcb] using hrec.1
      · rw [show c + (countFailures os + 1) = (c + 1) + countFailures os by omega]
        simpa [CircuitBreaker.runCalls, hcb] using hrec.2

/-- An open breaker rejects every further call made before its timeout
elapses, unchanged. -/
theorem runCalls_open (thr : Nat) (tmo t : Int) (c : Nat) (lft : Int)
    (hlf : t - lft ≤ tmo) :
    ∀ os, ((CircuitBreaker.mk thr tmo c (some lft) .OPEN).runCalls t os)
        = CircuitBreaker.mk thr tmo c (some lft) .OPEN := by
  intro os
  induction os with
  | nil => rfl
  | cons o os ih =>
    have hcb : ((CircuitBreaker.mk thr tmo c (some lft) .OPEN).call t o).breaker
        = CircuitBreaker.mk thr tmo c (some lft) .OPEN := by
      simp [CircuitBreaker.call, show ¬ (t - lft > tmo) by omega]
    simp [CircuitBreaker.runCalls, hcb, ih]

/-- Once the cumulative failures reach the threshold the run ends
open. -/
theorem runCalls_reach_open (thr : Nat) (tmo t : Int) (hto : 0 ≤ tmo) :
    ∀ (os : List (Except PyErr Unit)) (c : Nat) (lft : Option Int),
      c < thr → thr ≤ c + countFailures os →
      ((CircuitBreaker.mk thr tmo c lft .CLOSED).runCalls t os).state = .OPEN := by
  intro os
  induction os with
  | nil =>
    intro c lft h1 h2
    exfalso
    simp [countFailures] at h2
    omega
  | cons o os ih =>
    intro c lft h1 h2
    cases o with
    | ok v =>
      have hcb : ((CircuitBreaker.mk thr tmo c lft .CLOSED).call t (.ok v : Except PyErr Unit)).breaker
          = CircuitBreaker.mk thr tmo c lft .CLOSED := by
        simp [CircuitBreaker.call, CircuitBreaker.exec]
      rw [countFailures_cons_ok] at h2
      simpa [CircuitBreaker.runCalls, hcb] using ih c lft h1 h2
    | error e =>
      rw [countFailures_cons_err] at h2
      by_cases hth : thr ≤ c + 1
      · have hcb : ((CircuitBreaker.mk thr tmo c lft .CLOSED).call t (.error e : Except PyErr Unit)).breaker
            = CircuitBreaker.mk thr tmo (c + 1) (some t) .OPEN := by
          simp [CircuitBreaker.call, CircuitBreaker.exec, hth]
        simp [CircuitBreaker.runCalls, hcb,
          runCalls_open thr tmo t (c + 1) t (by omega)]
      · have hcb : ((CircuitBreaker.mk thr tmo c lft .CLOSED).call t (.error e : Except PyErr Unit)).breaker
            = CircuitBreaker.mk thr tmo (c + 1) (some t) .CLOSED := by
          simp [CircuitBreaker.call, CircuitBreaker.exec, hth]
        simpa [CircuitBreaker.runCalls, hcb] using
          ih (c + 1) (some t) (by omega) (by omega)

/-- C10: a successful call in the CLOSED state leaves the breaker,
failure count included, unchanged — the count is reset only by a
HALF_OPEN success — so from a fresh breaker, over any call sequence at
one instant, the failure count accumulates across interleaved
successes: the run stays closed with count equal to the number of
failures while they are below the threshold, and ends open once the
cumulative failures reach the threshold. -/
theorem C10_failure_count_accumulation :
    ∀ (α : Type) (cb : CircuitBreaker) (t : Int) (v : α)
      (thr : Nat) (tmo : Int) (os : List (Except PyErr Unit)),
    (cb.state = .CLOSED → (cb.call t (.ok v : Except PyErr α)).breaker = cb)
    ∧ (countFailures os < thr →
      ((CircuitBreaker.mk thr tmo 0 none .CLOSED).runCalls t os).state = .CLOSED
      ∧ ((CircuitBreaker.mk thr tmo 0 none .CLOSED).runCalls t os).failure_count
          = countFailures os)
    ∧ (1 ≤ thr → 0 ≤ tmo → thr ≤ countFailures os →
      ((CircuitBreaker.mk thr tmo 0 none .CLOSED).runCalls t os).state = .OPEN) := by
  intro α cb t v thr tmo os
  refine ⟨?_, ?_, ?_⟩
  · intro hs
    simp [CircuitBreaker.call, CircuitBreaker.exec, hs]
  · intro h
    simpa using runCalls_closed thr tmo t os 0 none (by omega)
  · intro h1 h2 h3
    exact runCalls_reach_open thr tmo t h2 os 0 none (by omega) (by omega)

/-- C10 witness: two failures separated by a success open a breaker
with threshold two, and a success in CLOSED changes nothing. -/
theorem C10_witness :
    ((CircuitBreaker.mk 2 60 0 none .CLOSED).runCalls 0
        [.error .typeError, .ok (), .error .typeError]).state = .OPEN
    ∧ ((CircuitBreaker.mk 2 60 1 (some 0) .CLOSED).call 0
        (.ok () : Except PyErr Unit)).breaker
        = CircuitBreaker.mk 2 60 1 (some 0) .CLOSED := by
  refine ⟨?_, ?_⟩
  · exact (C10_failure_count_accumulation Unit (CircuitBreaker.mk 2 60 0 none .CLOSED)
      0 () 2 60 [.error .typeError, .ok (), .error .typeError]).2.2
      (by omega) (by omega) (by decide)
  · exact (C10_failure_count_accumulation Unit (CircuitBreaker.mk 2 60 1 (some 0) .CLOSED)
      0 () 2 60 []).1 rfl

/-! ### Orchestrator lemmas -/

/-- The finally block always ends with the staging file absent. -/
theorem cleanup_temp_false (b : Bool) : cleanup_temp b = false := by
  cases b <;> rfl

/-- The staging flag after _copy_via_temp is false on every path. -/
theorem copy_via_temp_snd (env : TransferEnv)
    (sp sc spath dp dc dpath : String) (t0 t1 : Int) (temp0 : Bool) :
    (_copy_via_temp env sp sc spath dp dc dpath t0 t1 temp0).2 = false := by
  unfold _copy_via_temp
  cases env.authenticate sp with
  | error e => simp [cleanup_temp_false]
  | ok u =>
    cases env.download_result with
    | error e => simp [cleanup_temp_false]
    | ok dres =>
      by_cases hs : dres.success = false
      · simp [hs, cleanup_temp_false]
      · simp only [hs, if_false]
        cases env.authenticate dp with
        | error e => simp [cleanup_temp_false]
        | ok u' =>
          cases env.upload_result with
          | error e => simp [cleanup_temp_false]
          | ok ures =>
            by_cases hu : ures.success = false
            · simp [hu, cleanup_temp_false]
            · simp [hu, cleanup_temp_false]

/-- Every successful return of _copy_via_temp is one of its own three
result literals, all satisfying the outcome invariant. -/
theorem copy_via_temp_ok_valid (env : TransferEnv)
    (sp sc spath dp dc dpath : String) (t0 t1 : Int) (temp0 : Bool)
    (r : TransferResult)
    (h : (_copy_via_temp env sp sc spath dp dc dpath t0 t1 temp0).1 = .ok r) :
    ValidOutcome r := by
  unfold _copy_via_temp at h
  cases ha : env.authenticate sp with
  | error e => rw [ha] at h; simp at h
  | ok u =>
    rw [ha] at h
    cases hdl : env.download_result with
    | error e => rw [hdl] at h; simp at h
    | ok dres =>
      rw [hdl] at h
      dsimp only at h
      by_cases hs : dres.success = false
      · simp [hs] at h
        rw [← h]
        simp [ValidOutcome]
      · rw [if_neg hs] at h
        cases ha' : env.authenticate dp with
        | error e => rw [ha'] at h; simp at h
        | ok u' =>
          rw [ha'] at h
          cases hul : env.upload_result with
          | error e => rw [hul] at h; simp at h
          | ok ures =>
            rw [hul] at h
            by_cases hu : ures.success = false
            · simp [hu] at h
              rw [← h]
              simp [ValidOutcome]
            · simp [hu] at h
              rw [← h]
              simp [ValidOutcome]

/-- The full invariant implies the weak one. -/
theorem valid_weak (r : TransferResult) (h : ValidOutcome r) :
    WeakValidOutcome r :=
  ⟨h.1, fun hf => (h.2 hf).1⟩

/-- For URLs that parse, copy_file_direct always returns an outcome (its
try block captures every exception into a failed result). -/
theorem copy_total (env : TransferEnv) (src dst : String) (t0 t1 : Int)
    (hs : parseOk src = true) (hd : parseOk dst = true) :
    ∃ r, (copy_file_direct env src dst t0 t1).1 = .ok r := by
  unfold parseOk at hs hd
  cases hps : _parse_cloud_url src with
  | error e => rw [hps] at hs; simp at hs
  | ok x =>
    cases hpd : _parse_cloud_url dst with
    | error e => rw [hpd] at hd; simp at hd
    | ok y =>
      obtain ⟨sp, sc, spath⟩ := x
      obtain ⟨dp, dc, dpath⟩ := y
      by_cases hpp : sp = dp
      · subst hpp
        cases hA : env.authenticate sp with
        | error e =>
          simp [copy_file_direct, hps, hpd, hA]
        | ok u =>
          cases hc : env.copy_result with
          | error e =>
            simp [copy_file_direct, hps, hpd, hA, hc]
          | ok r =>
            simp [copy_file_direct, hps, hpd, hA, hc]
      · rcases hvt : _copy_via_temp env sp sc spath dp dc dpath t0 t1 false
          with ⟨res, tmp⟩
        cases res with
        | error e =>
          simp [copy_file_direct, hps, hpd, hpp, hvt]
        | ok r =>
          simp [copy_file_direct, hps, hpd, hpp, hvt]

/-- C1: for every cross-backend transfer, whatever the download and
upload legs return or raise and whether the download left a partial
staging file, the staging file does not exist once _copy_via_temp has
run its finally block — and no copy_file_direct call leaves one
behind. -/
theorem C1_staging_cleanup :
    ∀ (env : TransferEnv) (sp sc spath dp dc dpath : String) (t0 t1 : Int)
      (temp0 : Bool) (src dst : String),
    (_copy_via_temp env sp sc spath dp dc dpath t0 t1 temp0).2 = false
    ∧ (copy_file_direct env src dst t0 t1).2 = false := by
  intro env sp sc spath dp dc dpath t0 t1 temp0 src dst
  refine ⟨copy_via_temp_snd env sp sc spath dp dc dpath t0 t1 temp0, ?_⟩
  unfold copy_file_direct
  cases hps : _parse_cloud_url src with
  | error e => simp
  | ok x =>
    cases hpd : _parse_cloud_url dst with
    | error e => simp
    | ok y =>
      obtain ⟨sp', sc', spath'⟩ := x
      obtain ⟨dp', dc', dpath'⟩ := y
      by_cases hpp : sp' = dp'
      · subst hpp
        cases hA : env.authenticate sp' with
        | error e => simp [hA]
        | ok u =>
          cases hc : env.copy_result with
          | error e => simp [hA, hc]
          | ok r => simp [hA, hc]
      · rcases hvt : _copy_via_temp env sp' sc' spath' dp' dc' dpath' t0 t1 false
          with ⟨res, tmp⟩
        have htmp : tmp = false := by
          have := copy_via_temp_snd env sp' sc' spath' dp' dc' dpath' t0 t1 false
          rw [hvt] at this
          exact this
        cases res with
        | error e => simp [hpp, hvt, htmp]
        | ok r => simp [hpp, hvt, htmp]

/-- Index shape of batch_go from an arbitrary starting position. -/
theorem batch_go_spec (envs : Nat → TransferEnv) (times : Nat → Int × Int) :
    ∀ (l : List (String × String)) (i : Nat),
      (∀ p ∈ l, parseOk p.1 = true ∧ parseOk p.2 = true) →
      ∃ rs, batch_go envs times i l = .ok rs
        ∧ rs.length = l.length
        ∧ ∀ j p, l[j]? = some p →
            ∃ r, (copy_file_direct (envs (i + j)) p.1 p.2
                (times (i + j)).1 (times (i + j)).2).1 = .ok r
              ∧ rs[j]? = some r := by
  intro l
  induction l with
  | nil =>
    intro i _
    refine ⟨[], rfl, rfl, ?_⟩
    intro j p hp
    simp at hp
  | cons hd tl ih =>
    intro i h
    obtain ⟨s, d⟩ := hd
    obtain ⟨hs, hd'⟩ := h (s, d) (List.mem_cons_self _ _)
    obtain ⟨r0, hr0⟩ := copy_total (envs i) s d (times i).1 (times i).2 hs hd'
    obtain ⟨rs, hrs, hlen, hidx⟩ :=
      ih (i + 1) (fun p hp => h p (List.mem_cons_of_mem _ hp))
    refine ⟨r0 :: rs, ?_, by simp [hlen], ?_⟩
    · simp [batch_go, hr0, hrs]
    · intro j p hp
      cases j with
      | zero =>
        simp at hp
        refine ⟨r0, ?_, by simp⟩
        rw [← hp]
        simpa using hr0
      | succ j' =>
        simp at hp
        obtain ⟨r, hr, hrs'⟩ := hidx j' p hp
        refine ⟨r, ?_, by simpa using hrs'⟩
        rw [show i + (j' + 1) = (i + 1) + j' by omega]
        exact hr

/-- C2 (amended): for every input list of transfer pairs in which every
URL has a recognized scheme, batch_copy returns a list of outcomes of
the same length and order as the input, the outcome at each position
being exactly what copy_file_direct returns there — so a failed outcome
never prevents a subsequent transfer; but a pair with an unrecognized
scheme makes copy_file_direct raise, aborting the whole batch with no
list returned. -/
theorem C2_batch_copy (envs : Nat → TransferEnv) (times : Nat → Int × Int)
    (transfers : List (String × String))
    (hp : ∀ p ∈ transfers, parseOk p.1 = true ∧ parseOk p.2 = true) :
    ∃ rs, batch_copy envs times transfers = .ok rs
      ∧ rs.length = transfers.length
      ∧ ∀ j p, transfers[j]? = some p →
          ∃ r, (copy_file_direct (envs j) p.1 p.2
              (times j).1 (times j).2).1 = .ok r
            ∧ rs[j]? = some r := by
  obtain ⟨rs, h1, h2, h3⟩ := batch_go_spec envs times transfers 0 hp
  refine ⟨rs, h1, h2, ?_⟩
  intro j p hp'
  simpa using h3 j p hp'

/-- C2 witness: a concrete one-element batch whose URLs parse. -/
theorem C2_witness :
    ∃ rs, batch_copy (fun _ => envOkay) (fun _ => (0, 1))
        [("s3://a/f", "gs://b/g")] = .ok rs
      ∧ rs.length = 1 := by
  obtain ⟨rs, h1, h2, _⟩ := C2_batch_copy (fun _ => envOkay) (fun _ => (0, 1))
    [("s3://a/f", "gs://b/g")] (by decide)
  exact ⟨rs, h1, by simpa using h2⟩

/-- C2 counterexample: a batch containing one pair with an unrecognized
scheme raises the parse ValueError and returns no outcome list at all,
so the same-length-and-order property fails on that input. -/
theorem C2_counterexample :
    batch_copy (fun _ => envOkay) (fun _ => (0, 1)) [("ftp://c/f", "s3://b/f")]
      = .error (.valueError "Unsupported URL scheme: ftp")
    ∧ ∀ rs : List TransferResult,
        batch_copy (fun _ => envOkay) (fun _ => (0, 1)) [("ftp://c/f", "s3://b/f")]
          ≠ .ok rs := by
  have h : batch_copy (fun _ => envOkay) (fun _ => (0, 1)) [("ftp://c/f", "s3://b/f")]
      = .error (.valueError "Unsupported URL scheme: ftp") := rfl
  refine ⟨h, fun rs hrs => ?_⟩
  rw [h] at hrs
  cases hrs

/-- C3 (amended): a URL with an unrecognized scheme makes
copy_file_direct raise the parse ValueError to its caller — the parse
runs before the try block — without invoking any connector (the result
is independent of the connector environment) and without returning a
Failed outcome. -/
theorem C3_parse_failure_raises :
    ∀ (env env' : TransferEnv) (src dst : String) (t0 t1 : Int) (e : PyErr),
    (_parse_cloud_url src = .error e →
      (copy_file_direct env src dst t0 t1).1 = .error e
      ∧ copy_file_direct env src dst t0 t1 = copy_file_direct env' src dst t0 t1)
    ∧ (∀ x, _parse_cloud_url src = .ok x → _parse_cloud_url dst = .error e →
      (copy_file_direct env src dst t0 t1).1 = .error e
      ∧ copy_file_direct env src dst t0 t1 = copy_file_direct env' src dst t0 t1) := by
  intro env env' src dst t0 t1 e
  constructor
  · intro h
    constructor <;> simp [copy_file_direct, h]
  · intro x hx h
    obtain ⟨sp, sc, spath⟩ := x
    constructor <;> simp [copy_file_direct, hx, h]

/-- C3 witness: the raise at a concrete unrecognized-scheme URL, with
the result unchanged under a different connector environment. -/
theorem C3_witness :
    (copy_file_direct envOkay "ftp://c/f" "s3://b/f" 0 1).1
      = .error (.valueError "Unsupported URL scheme: ftp")
    ∧ copy_file_direct envOkay "ftp://c/f" "s3://b/f" 0 1
      = copy_file_direct envAuthFail "ftp://c/f" "s3://b/f" 0 1 :=
  (C3_parse_failure_raises envOkay envAuthFail "ftp://c/f" "s3://b/f" 0 1
    (.valueError "Unsupported URL scheme: ftp")).1 rfl

/-- C3 counterexample: on an unrecognized scheme copy_file_direct raises
the ValueError instead of returning a Failed TransferOutcome. -/
theorem C3_counterexample :
    (copy_file_direct envOkay "ftp://c/f" "s3://b/f" 0 1).1
      = .error (.valueError "Unsupported URL scheme: ftp")
    ∧ ∀ r : TransferResult,
        (copy_file_direct envOkay "ftp://c/f" "s3://b/f" 0 1).1 ≠ .ok r := by
  have h : (copy_file_direct envOkay "ftp://c/f" "s3://b/f" 0 1).1
      = .error (.valueError "Unsupported URL scheme: ftp") := rfl
  refine ⟨h, fun r hr => ?_⟩
  rw [h] at hr
  cases hr

/-- C6 (amended): every connector-built outcome and every outcome built
inside _copy_via_temp satisfies the invariant — success exactly when the
error message is absent, and zero bytes and zero duration on failure;
every outcome returned by copy_file_direct (given connector copy
results satisfying the invariant) satisfies it except that its
exception-handler outcome records the elapsed time, not zero, as the
duration of a failure. -/
theorem C6_outcome_invariant :
    (∀ src dst msg, ValidOutcome (connectorFailureResult src dst msg))
    ∧ (∀ src dst bytes dur, ValidOutcome (connectorSuccessResult src dst bytes dur))
    ∧ (∀ (env : TransferEnv) (sp sc spath dp dc dpath : String) (t0 t1 : Int)
        (temp0 : Bool) (r : TransferResult),
        (_copy_via_temp env sp sc spath dp dc dpath t0 t1 temp0).1 = .ok r →
        ValidOutcome r)
    ∧ (∀ (env : TransferEnv) (src dst : String) (t0 t1 : Int) (r : TransferResult),
        (∀ r', env.copy_result = .ok r' → ValidOutcome r') →
        (copy_file_direct env src dst t0 t1).1 = .ok r →
        WeakValidOutcome r) := by
  refine ⟨?_, ?_, ?_, ?_⟩
  · intro src dst msg
    simp [ValidOutcome, connectorFailureResult]
  · intro src dst bytes dur
    simp [ValidOutcome, connectorSuccessResult]
  · intro env sp sc spath dp dc dpath t0 t1 temp0 r h
    exact copy_via_temp_ok_valid env sp sc spath dp dc dpath t0 t1 temp0 r h
  · intro env src dst t0 t1 r hc h
    unfold copy_file_direct at h
    cases hps : _parse_cloud_url src with
    | error e => rw [hps] at h; simp at h
    | ok x =>
      rw [hps] at h
      cases hpd : _parse_cloud_url dst with
      | error e => rw [hpd] at h; simp at h
      | ok y =>
        rw [hpd] at h
        obtain ⟨sp, sc, spath⟩ := x
        obtain ⟨dp, dc, dpath⟩ := y
        by_cases hpp : sp = dp
        · subst hpp
          cases hA : env.authenticate sp with
          | error e =>
            simp [hA] at h
            rw [← h]
            simp [WeakValidOutcome]
          | ok u =>
            cases hcr : env.copy_result with
            | error e =>
              simp [hA, hcr] at h
              rw [← h]
              simp [WeakValidOutcome]
            | ok r' =>
              simp [hA, hcr] at h
              rw [← h]
              exact valid_weak r' (hc r' hcr)
        · rcases hvt : _copy_via_temp env sp sc spath dp dc dpath t0 t1 false
            with ⟨res, tmp⟩
          cases res with
          | error e =>
            simp [hpp, hvt] at h
            rw [← h]
            simp [WeakValidOutcome]
          | ok r' =>
            simp [hpp, hvt] at h
            rw [← h]
            exact valid_weak r'
              (copy_via_temp_ok_valid env sp sc spath dp dc dpath t0 t1 false r'
                (by rw [hvt]))

/-- C6 witness: the invariant at a concrete same-provider copy. -/
theorem C6_witness : WeakValidOutcome (connectorSuccessResult "s" "d" 10 1) := by
  refine C6_outcome_invariant.2.2.2 envOkay "s3://a/f" "s3://b/g" 0 1 _ ?_ rfl
  intro r' h
  injection h with h'
  rw [← h']
  exact C6_outcome_invariant.2.1 "s" "d" 10 1

/-- C6 counterexample: the exception handler of copy_file_direct builds
a failed outcome whose duration is the elapsed time (here 5), not zero,
violating the zero-duration-on-failure clause. -/
theorem C6_counterexample :
    (copy_file_direct envAuthFail "s3://a/f" "s3://b/g" 0 5).1 = .ok failedWithDuration
    ∧ failedWithDuration.success = false
    ∧ failedWithDuration.duration_seconds ≠ 0 := by
  refine ⟨rfl, rfl, by decide⟩

end MCI
